import Mathlib

/-!
Verification of the report-lifecycle state machine and the citizen scoring
engine of the clean-mboka backend (FastAPI + SQLAlchemy).

The Python handlers in `app/api/reports.py`, `app/api/tasks.py` and the pure
service `app/services/scoring_service.py` are shallowly embedded as Lean
functions on an explicit record state:

* a database row becomes a Lean structure (`Report`, `User`, `Subscription`);
  nullable columns become `Option` fields;
* `datetime` values become integer timestamps (seconds); `timedelta`
  comparisons become integer comparisons; `datetime.utcnow()` becomes an
  explicit `now` parameter;
* `float` weights become rationals; the Python `int(...)` truncation is
  `pyInt`;
* each HTTP handler becomes a function returning an `Outcome`: the post
  state together with an optional error.  A handler that raises before any
  mutation returns the unchanged state with `some` error; the one handler
  that commits a write and then raises (the expired-deadline confirmation)
  returns the mutated state with `some` error, exactly as the session commit
  in the source persists that write;
* HTTP error responses are mapped to the error kinds of the specification:
  403 to `PermissionDenied`, 404 to `NotFound`, and the 400 family to
  `InvalidState` / `ValidationError` / `AlreadySet` / `Expired` according to
  the failed precondition at each raise site.

Unicode-sensitive Python primitives (`str.strip`, `str.lower`,
`str.isupper`, `\d`, `\s`) are embedded at ASCII fidelity, which is exact on
all inputs used in the theorems below and irrelevant to the claimed bounds.
-/

/-- Report lifecycle states, from `app/models/report.py` (`ReportStatus`). -/
inductive ReportStatus where
  | PENDING
  | ASSIGNED
  | IN_PROGRESS
  | AWAITING_CONFIRMATION
  | COMPLETED
  | DISPUTED
deriving DecidableEq, Repr

/-- Error kinds of the domain (spec section 7), mapped from the HTTP raise
sites as described in the file header. -/
inductive ApiError where
  | NotFound
  | PermissionDenied
  | InvalidState
  | ValidationError
  | AlreadySet
  | Expired
deriving DecidableEq, Repr

/-- A user row (`app/models/user.py`), restricted to the fields the core
reads.  `role` holds the lowercased role string exactly as produced by
`get_user_role` in `app/api/reports.py`.  `points` is nullable in the
schema, hence `Option Int`. -/
structure User where
  id : Nat
  role : String
  commune : Option String
  points : Option Int
  subscription_active : Bool
deriving DecidableEq, Repr

/-- A report row (`app/models/report.py`), restricted to the fields the
core reads or writes.  Timestamps are integer seconds. -/
structure Report where
  id : Nat
  user_id : Nat
  collector_id : Option Nat
  status : ReportStatus
  description : Option String
  description_quality_score : Option Int
  weight_kg : Option ℚ
  weight_verified_at : Option Int
  weight_verified_by : Option Nat
  cleanup_photo_url : Option String
  cleanup_photo_submitted_at : Option Int
  citizen_confirmed : Bool
  citizen_confirmed_at : Option Int
  confirmation_code : Option String
  dispute_reason : Option String
  confirmation_deadline : Option Int
  auto_confirmed : Bool
  last_action : Option String
  last_action_at : Option Int
  resolved_at : Option Int
deriving DecidableEq, Repr

/-- A subscription row (`app/models/subscription.py`), restricted to the
fields read by `attribuer_points_abonnement`. -/
structure Subscription where
  user_id : Nat
  is_active : Bool
  end_date : Int
deriving DecidableEq, Repr

/-- Request body of the citizen confirmation endpoint
(`CitizenConfirmation` in `app/schemas/report.py`). -/
structure CitizenConfirmation where
  confirmed : Bool
  reason : Option String
  confirmation_code : Option String
deriving DecidableEq, Repr

/-- Result of one handler call: the post state, and the error raised (if
any).  Failure before any write returns the input state; the
expired-deadline confirmation returns its committed write together with the
error. -/
structure Outcome (σ : Type) where
  state : σ
  error : Option ApiError
deriving DecidableEq, Repr

/- ===================== scoring_service.py helpers ===================== -/

/-- ASCII whitespace, the characters stripped by Python `str.strip()` and
matched by the regex class `\s` (restricted to ASCII). -/
def isPySpace (c : Char) : Bool :=
  c = ' ' || c = '\t' || c = '\n' || c = '\r' || c = '\x0b' || c = '\x0c'

/-- Python `str.strip()` on a character list. -/
def pyStrip (l : List Char) : List Char :=
  ((l.dropWhile isPySpace).reverse.dropWhile isPySpace).reverse

/-- Number of maximal non-whitespace runs: `len(s.split())` in Python. -/
def wordCount (l : List Char) : Nat :=
  (l.foldl
    (fun (acc : Nat × Bool) c =>
      if isPySpace c then (acc.1, false)
      else if acc.2 then acc else (acc.1 + 1, true))
    (0, false)).1

/-- The unit alternatives of the quantity regex in
`calculer_score_description`:
`\d+\s*(kg|kilo|kilos|tonne|tonnes|sac|sacs|unité|unités|m|m²|m3)`. -/
def qtyUnits : List String :=
  ["kg", "kilo", "kilos", "tonne", "tonnes", "sac", "sacs",
   "unité", "unités", "m", "m²", "m3"]

/-- Some quantity unit is a prefix of `l`. -/
def unitAt (l : List Char) : Bool :=
  qtyUnits.any (fun u => u.data.isPrefixOf l)

/-- `\s*(unit)` matches a prefix of `l`. -/
def unitAfterSpaces : List Char → Bool
  | [] => false
  | c :: rest => unitAt (c :: rest) || (isPySpace c && unitAfterSpaces rest)

/-- After at least one digit has been consumed, `(\d)*\s*(unit)` matches a
prefix of `l`. -/
def afterOneDigit : List Char → Bool
  | [] => false
  | c :: rest => unitAfterSpaces (c :: rest) || (c.isDigit && afterOneDigit rest)

/-- `re.search` of the quantity pattern: `\d+\s*(unit)` matches at some
position of `l`. -/
def searchQuantity : List Char → Bool
  | [] => false
  | c :: rest => (c.isDigit && afterOneDigit rest) || searchQuantity rest

/-- The weighted keyword dictionary `mots_cles` of
`calculer_score_description`, in source order. -/
def motsCles : List (String × Int) :=
  [("plastique", 2), ("bouteille", 2), ("sachet", 2), ("bouteilles", 2),
   ("plastiques", 2), ("organique", 2), ("nourriture", 2), ("restes", 2),
   ("alimentaire", 2), ("encombrant", 2), ("meuble", 2),
   ("électroménager", 2), ("canapé", 2), ("matelas", 2), ("médical", 3),
   ("dangereux", 3), ("verre", 2), ("vitre", 2), ("brisé", 1),
   ("carton", 1), ("papier", 1), ("métal", 2), ("ferraille", 2),
   ("sacs", 1), ("tas", 1), ("dépôt", 1), ("sauvage", 2)]

/-- `needle` occurs as a contiguous substring of `hay`: the Python `in`
operator on strings. -/
def isSubList (needle : List Char) : List Char → Bool
  | [] => needle.isEmpty
  | c :: rest => needle.isPrefixOf (c :: rest) || isSubList needle rest

/-- First character is an uppercase letter (`description[0].isupper()`). -/
def headIsUpper : List Char → Bool
  | [] => false
  | c :: _ => c.isUpper

/-- `ScoringService.calculer_score_description` from
`app/services/scoring_service.py`.  A `none` input stands for the `None` /
non-string inputs rejected by the `isinstance` guard; the empty and
short-after-strip guards are the source conditions `not description` and
`len(description.strip()) < 10`. -/
def calculer_score_description (description : Option String) : Int :=
  match description with
  | none => 0
  | some d =>
    let chars := d.data
    if chars.isEmpty || (pyStrip chars).length < 10 then 0
    else
      let descLower := chars.map Char.toLower
      let lengthScore : Int :=
        if wordCount chars ≥ 20 then 10
        else if wordCount chars ≥ 10 then 5
        else if wordCount chars ≥ 5 then 2
        else 0
      let kwScore : Int :=
        (motsCles.map (fun kv => if isSubList kv.1.data descLower then kv.2 else 0)).sum
      let qtyScore : Int := if searchQuantity descLower then 4 else 0
      let structScore : Int :=
        (if ',' ∈ chars ∧ '.' ∈ chars then 2 else 0)
          + (if headIsUpper chars then 1 else 0)
          + (if '?' ∈ chars ∨ '!' ∈ chars then 1 else 0)
      min (lengthScore + kwScore + qtyScore + structScore) 30

/-- Python `int(q)`: truncation toward zero. -/
def pyInt (q : ℚ) : Int :=
  if 0 ≤ q then ⌊q⌋ else -⌊-q⌋

/-- The `details` dictionary built by `calculer_points_signalement`: an
entry is `none` when the corresponding key is absent from the dict. -/
structure PointsDetails where
  description : Option Int
  poids : Option Int
  confirmation_rapide : Option Int
deriving DecidableEq, Repr

/-- Sum of the values present in the details dictionary. -/
def PointsDetails.sum (d : PointsDetails) : Int :=
  d.description.getD 0 + d.poids.getD 0 + d.confirmation_rapide.getD 0

/-- Return value of `calculer_points_signalement`. -/
structure PointsResult where
  details : PointsDetails
  total : Int
deriving DecidableEq, Repr

/-- `ScoringService.POINTS_CONFIRMATION_BONUS`. -/
def POINTS_CONFIRMATION_BONUS : Int := 20

/-- `ScoringService.POINTS_ABONNEMENT_MENSUEL`. -/
def POINTS_ABONNEMENT_MENSUEL : Int := 10

/-- `ScoringService.calculer_points_signalement` from
`app/services/scoring_service.py`.  The `user` argument is unused in the
source body as well. -/
def calculer_points_signalement (db_report : Report) (user : User) : PointsResult :=
  let _ := user
  let score_desc := db_report.description_quality_score.getD 0
  let dDesc : Option Int := if score_desc > 0 then some score_desc else none
  let dPoids : Option Int :=
    match db_report.weight_kg with
    | some w => if w ≠ 0 ∧ w > 0 then some (pyInt (w * 2)) else none
    | none => none
  let dBonus : Option Int :=
    if db_report.citizen_confirmed then
      match db_report.cleanup_photo_submitted_at, db_report.citizen_confirmed_at with
      | some ts, some tc =>
        if tc - ts < 86400 then some POINTS_CONFIRMATION_BONUS else none
      | _, _ => none
    else none
  { details := { description := dDesc, poids := dPoids, confirmation_rapide := dBonus },
    total := dDesc.getD 0 + dPoids.getD 0 + dBonus.getD 0 }

/-- `ScoringService.attribuer_points_abonnement` from
`app/services/scoring_service.py`.  The source function itself mutates the
user row (`user.points += 10` or `user.subscription_active = False`) and
commits; here the returned `User` is that committed row, paired with the
returned point amount. -/
def attribuer_points_abonnement (user : User) (subs : List Subscription) (now : Int) :
    User × Int :=
  if !user.subscription_active then (user, 0)
  else
    match subs.find? (fun s => s.user_id = user.id && s.is_active && now < s.end_date) with
    | some _ =>
      ({ user with points := some (user.points.getD 0 + POINTS_ABONNEMENT_MENSUEL) },
       POINTS_ABONNEMENT_MENSUEL)
    | none => ({ user with subscription_active := false }, 0)

/- ======================= app/api/reports.py ======================= -/

/-- Roles allowed to submit a cleanup photo (`submit_cleanup_photo`). -/
def collectorRoles : List String := ["ramasseur", "collector"]

/-- Roles of ordinary citizens (`confirm_cleanup_by_citizen` and the legacy
confirm route). -/
def citizenRoles : List String := ["citoyen", "citizen"]

/-- Roles that bypass the geographic scope check and the ownership check on
confirmation (`admin` / `coordinator` tiers). -/
def adminTierRoles : List String :=
  ["admin", "administrateur", "coordinator", "coordinateur"]

/-- All agent roles accepted by `update_report_status`. -/
def agentRoles : List String :=
  ["collector", "ramasseur", "supervisor", "superviseur",
   "coordinator", "coordinateur", "admin", "administrateur"]

/-- Supervisor-only roles, for the geographic check in `resolve_dispute`. -/
def supervisorRoles : List String := ["superviseur", "supervisor"]

/-- Roles accepted by `resolve_dispute`. -/
def superPlusRoles : List String :=
  ["superviseur", "supervisor", "coordinateur", "coordinator",
   "admin", "administrateur"]

/-- Roles accepted by `update_report_weight`. -/
def weightRoles : List String :=
  ["ramasseur", "collector", "superviseur", "supervisor",
   "admin", "administrateur", "coordinator", "coordinateur"]

/-- Python `str.lower()` as a character list (ASCII fidelity). -/
def pyLower (s : String) : List Char := s.data.map Char.toLower

/-- The commune scope test used by several handlers: the check only fires
when both commune strings are present and non-empty (Python truthiness),
and compares them lowercased. -/
def communeMismatch (a b : Option String) : Bool :=
  match a, b with
  | some x, some y => x ≠ "" && y ≠ "" && pyLower x ≠ pyLower y
  | _, _ => false

/-- `submit_cleanup_photo` (POST `/{report_id}/submit-cleanup-photo`).
`newCode` is the generated 8-character confirmation code and `photoUrl`
the stored URL of the uploaded photo, both produced outside the embedded
logic.  The deadline is `now + 48h`. -/
def submit_cleanup_photo (db_report : Report) (current_user : User)
    (photoUrl : String) (notes : Option String) (newCode : String) (now : Int) :
    Outcome Report :=
  if current_user.role ∉ collectorRoles then
    { state := db_report, error := some ApiError.PermissionDenied }
  else if db_report.collector_id ≠ some current_user.id then
    { state := db_report, error := some ApiError.PermissionDenied }
  else if db_report.status ∉ [ReportStatus.IN_PROGRESS, ReportStatus.ASSIGNED] then
    { state := db_report, error := some ApiError.InvalidState }
  else
    let r1 := { db_report with
      cleanup_photo_url := some photoUrl,
      cleanup_photo_submitted_at := some now,
      status := ReportStatus.AWAITING_CONFIRMATION,
      confirmation_code := some newCode,
      confirmation_deadline := some (now + 48 * 3600),
      last_action := some "photo_submitted",
      last_action_at := some now }
    let r2 :=
      match notes with
      | some n =>
        if n ≠ "" then
          let existing := r1.description.getD ""
          let sep := if existing ≠ "" then "\n\n" else ""
          let newDesc := existing ++ sep ++ "📸 Notes du ramasseur: " ++ n
          { r1 with description := some newDesc }
        else r1
      | none => r1
    { state := r2, error := none }

/-- The write committed by the expired-deadline branch of
`confirm_cleanup_by_citizen` before it raises (`last_action_at` is not
touched on this path in the source). -/
def auto_confirm_write (r : Report) (now : Int) : Report :=
  { r with
    auto_confirmed := true,
    status := ReportStatus.COMPLETED,
    resolved_at := some now,
    last_action := some "auto_confirmed" }

/-- The backfill of `description_quality_score` in the confirmed branch of
`confirm_cleanup_by_citizen`: computed only when the score is absent and
the description is truthy. -/
def backfill_score_confirm (r : Report) : Report :=
  match r.description_quality_score, r.description with
  | none, some d =>
    if d ≠ "" then
      { r with description_quality_score := some (calculer_score_description (some d)) }
    else r
  | _, _ => r

/-- The report fields written by a successful positive confirmation, before
`last_action_at` is stamped: the state on which
`calculer_points_signalement` is evaluated in the source. -/
def confirm_success_report (r : Report) (now : Int) : Report :=
  { r with
    citizen_confirmed := true,
    citizen_confirmed_at := some now,
    status := ReportStatus.COMPLETED,
    resolved_at := some now,
    last_action := some "confirmed" }

/-- The confirm / dispute branch of `confirm_cleanup_by_citizen`, reached
once the status and deadline checks have passed.  `credit` is the source
condition `is_authenticated and is_owner` guarding the point credit; when
the computed total is zero the source falls back to a flat 100-point
award. -/
def confirm_cleanup_branch (db_report : Report) (owner : User) (credit : Bool)
    (confirmation : CitizenConfirmation) (now : Int) : Outcome (Report × User) :=
  if confirmation.confirmed then
    let r1 := confirm_success_report db_report now
    if credit then
      let r2 := backfill_score_confirm r1
      let pts := calculer_points_signalement r2 owner
      let owner2 :=
        if pts.total > 0 then
          { owner with points := some (owner.points.getD 0 + pts.total) }
        else
          { owner with points := some (owner.points.getD 0 + 100) }
      { state := ({ r2 with last_action_at := some now }, owner2), error := none }
    else
      { state := ({ r1 with last_action_at := some now }, owner), error := none }
  else
    match confirmation.reason with
    | none => { state := (db_report, owner), error := some ApiError.ValidationError }
    | some reason =>
      if reason = "" ∨ (pyStrip reason.data).length < 10 then
        { state := (db_report, owner), error := some ApiError.ValidationError }
      else
        { state :=
            ({ db_report with
                citizen_confirmed := false,
                dispute_reason := some reason,
                status := ReportStatus.DISPUTED,
                last_action := some "disputed",
                last_action_at := some now },
              owner),
          error := none }

/-- Core of `confirm_cleanup_by_citizen` after authentication: status
check, deadline check (with its committed auto-confirm write), then the
confirm / dispute branch.  `owner` is the row `db_report.user` of the
reporting citizen. -/
def confirm_cleanup_core (db_report : Report) (owner : User) (credit : Bool)
    (confirmation : CitizenConfirmation) (now : Int) : Outcome (Report × User) :=
  if db_report.status ≠ ReportStatus.AWAITING_CONFIRMATION then
    { state := (db_report, owner), error := some ApiError.InvalidState }
  else
    match db_report.confirmation_deadline with
    | some d =>
      if now > d then
        { state := (auto_confirm_write db_report now, owner),
          error := some ApiError.Expired }
      else confirm_cleanup_branch db_report owner credit confirmation now
    | none => confirm_cleanup_branch db_report owner credit confirmation now

/-- `confirm_cleanup_by_citizen` (POST `/{report_id}/confirm-cleanup`).
`current_user` is `none` for an unauthenticated (confirmation-code) call.
`owner` is the reporting citizen row `db_report.user`; point credits are
applied to it.  The authentication cascade mirrors the source: an
authenticated non-citizen non-owner is rejected, then an authenticated
non-owner outside the admin tier is rejected; an anonymous caller must
supply the exact confirmation code. -/
def confirm_cleanup_by_citizen (db_report : Report) (owner : User)
    (current_user : Option User) (confirmation : CitizenConfirmation) (now : Int) :
    Outcome (Report × User) :=
  match current_user with
  | some cu =>
    let is_owner := db_report.user_id = cu.id
    if cu.role ∉ citizenRoles ∧ ¬ is_owner then
      { state := (db_report, owner), error := some ApiError.PermissionDenied }
    else if ¬ is_owner ∧ cu.role ∉ adminTierRoles then
      { state := (db_report, owner), error := some ApiError.PermissionDenied }
    else
      confirm_cleanup_core db_report owner is_owner confirmation now
  | none =>
    match confirmation.confirmation_code with
    | none => { state := (db_report, owner), error := some ApiError.ValidationError }
    | some c =>
      if c = "" then
        { state := (db_report, owner), error := some ApiError.ValidationError }
      else if db_report.confirmation_code ≠ some c then
        { state := (db_report, owner), error := some ApiError.PermissionDenied }
      else
        confirm_cleanup_core db_report owner false confirmation now

/-- Append supervisor notes to the description, as `resolve_dispute` does
when `admin_notes` is truthy. -/
def append_admin_notes (r : Report) (admin_notes : Option String) : Report :=
  match admin_notes with
  | some n =>
    if n ≠ "" then
      let existing := r.description.getD ""
      let sep := if existing ≠ "" then "\n\n" else ""
      let newDesc := existing ++ sep ++ "👨‍💼 Notes du superviseur: " ++ n
      { r with description := some newDesc }
    else r
  | none => r

/-- `resolve_dispute` (PUT `/{report_id}/resolve-dispute`).  `ownerCommune`
is `db_report.user.commune`.  In the reject branch the source interpolates
a possibly absent dispute reason through an f-string, so a missing reason
renders as the literal text `None`; an absent or empty `admin_notes` falls
back to a fixed phrase. -/
def resolve_dispute (db_report : Report) (ownerCommune : Option String)
    (current_user : User) (resolution : String) (admin_notes : Option String)
    (now : Int) : Outcome Report :=
  if current_user.role ∉ superPlusRoles then
    { state := db_report, error := some ApiError.PermissionDenied }
  else if db_report.status ≠ ReportStatus.DISPUTED then
    { state := db_report, error := some ApiError.InvalidState }
  else if current_user.role ∈ supervisorRoles
      ∧ communeMismatch current_user.commune ownerCommune then
    { state := db_report, error := some ApiError.PermissionDenied }
  else if pyLower resolution = "accept".data then
    let r1 := { db_report with
      status := ReportStatus.COMPLETED,
      resolved_at := some now,
      citizen_confirmed := true,
      last_action := some "dispute_resolved_accepted",
      last_action_at := some now }
    { state := append_admin_notes r1 admin_notes, error := none }
  else if pyLower resolution = "reject".data then
    let notesText :=
      match admin_notes with
      | some n => if n ≠ "" then n else "Rejeté sans commentaire"
      | none => "Rejeté sans commentaire"
    let reasonText :=
      (db_report.dispute_reason.getD "None")
        ++ "\n\nRésolution superviseur: " ++ notesText
    let r1 := { db_report with
      status := ReportStatus.IN_PROGRESS,
      cleanup_photo_url := none,
      cleanup_photo_submitted_at := none,
      confirmation_code := none,
      confirmation_deadline := none,
      dispute_reason := some reasonText,
      last_action := some "dispute_resolved_rejected",
      last_action_at := some now }
    { state := append_admin_notes r1 admin_notes, error := none }
  else
    { state := db_report, error := some ApiError.ValidationError }

/-- The backfill of `description_quality_score` in `update_report_weight`:
unlike the confirmation path, an absent or falsy description backfills the
score to 0. -/
def backfill_score_weight (r : Report) : Report :=
  match r.description_quality_score with
  | some _ => r
  | none =>
    match r.description with
    | some d =>
      if d ≠ "" then
        { r with description_quality_score := some (calculer_score_description (some d)) }
      else { r with description_quality_score := some 0 }
    | none => { r with description_quality_score := some 0 }

/-- `update_report_weight` (PUT `/{report_id}/weight`), the handler body
after pydantic validation.  `owner` is `db_report.user`, credited with the
computed points when the total is positive. -/
def update_report_weight (db_report : Report) (owner : User) (current_user : User)
    (weight : ℚ) (now : Int) : Outcome (Report × User) :=
  if current_user.role ∉ weightRoles then
    { state := (db_report, owner), error := some ApiError.PermissionDenied }
  else if current_user.role ∈ collectorRoles
      ∧ db_report.collector_id ≠ some current_user.id then
    { state := (db_report, owner), error := some ApiError.PermissionDenied }
  else
    match db_report.weight_kg with
    | some _ => { state := (db_report, owner), error := some ApiError.AlreadySet }
    | none =>
      let r1 := { db_report with
        weight_kg := some weight,
        weight_verified_at := some now,
        weight_verified_by := some current_user.id,
        last_action := some "weight_recorded",
        last_action_at := some now }
      let r2 := backfill_score_weight r1
      let pts := calculer_points_signalement r2 owner
      let owner2 :=
        if pts.total > 0 then
          { owner with points := some (owner.points.getD 0 + pts.total) }
        else owner
      { state := (r2, owner2), error := none }

/-- The pydantic constraint of `ReportWeightUpdate` in
`app/schemas/report.py`: `weight_kg` must satisfy `gt=0, le=1000`. -/
def ReportWeightUpdate_valid (weight : ℚ) : Bool :=
  0 < weight ∧ weight ≤ 1000

/-- The weight endpoint including the pydantic request validation, which
rejects an out-of-range weight before the handler runs. -/
def update_report_weight_endpoint (db_report : Report) (owner : User)
    (current_user : User) (weight : ℚ) (now : Int) : Outcome (Report × User) :=
  if ¬ ReportWeightUpdate_valid weight then
    { state := (db_report, owner), error := some ApiError.ValidationError }
  else update_report_weight db_report owner current_user weight now

/-- `update_report_status` (PUT `/{report_id}`): the generic status-update
route.  `ownerCommune` is `db_report.user.commune`.  Any agent role may
call it; admin and coordinator tiers bypass the commune check; no check is
made on the current status, and passing `COMPLETED` stamps `resolved_at`
unconditionally. -/
def update_report_status (db_report : Report) (ownerCommune : Option String)
    (current_user : User) (new_status : ReportStatus) (collector_id : Option Nat)
    (now : Int) : Outcome Report :=
  if current_user.role ∉ agentRoles then
    { state := db_report, error := some ApiError.PermissionDenied }
  else if current_user.role ∉ adminTierRoles
      ∧ communeMismatch current_user.commune ownerCommune then
    { state := db_report, error := some ApiError.PermissionDenied }
  else
    let r1 :=
      if new_status = ReportStatus.IN_PROGRESS ∧ collector_id = none then
        { db_report with collector_id := some current_user.id }
      else db_report
    let r2 :=
      match collector_id with
      | some c => { r1 with collector_id := some c }
      | none => r1
    if new_status = ReportStatus.ASSIGNED ∧ collector_id = none then
      { state := db_report, error := some ApiError.ValidationError }
    else
      let r3 :=
        if new_status = ReportStatus.COMPLETED then
          { r2 with resolved_at := some now }
        else r2
      { state := { r3 with
          status := new_status,
          last_action := some "status_updated",
          last_action_at := some now },
        error := none }

/-- `confirm_collection_by_citizen` (PUT `/{report_id}/confirm-collection`),
the legacy no-photo confirmation path: flat 100-point bonus, no audit
fields.  The credited row is `current_user`, which the ownership check
forces to be the reporting citizen. -/
def confirm_collection_by_citizen (db_report : Report) (current_user : User)
    (now : Int) : Outcome (Report × User) :=
  if current_user.role ∉ citizenRoles then
    { state := (db_report, current_user), error := some ApiError.PermissionDenied }
  else if db_report.user_id ≠ current_user.id then
    { state := (db_report, current_user), error := some ApiError.PermissionDenied }
  else if db_report.status ≠ ReportStatus.IN_PROGRESS then
    { state := (db_report, current_user), error := some ApiError.InvalidState }
  else
    { state :=
        ({ db_report with
            status := ReportStatus.COMPLETED,
            resolved_at := some now },
          { current_user with points := some (current_user.points.getD 0 + 100) }),
      error := none }

/- ================== auto-confirmation sweep (reports.py / tasks.py) ================== -/

/-- The selection filter of the auto-confirm sweep: reports in
`AWAITING_CONFIRMATION` whose deadline has passed and which are neither
citizen-confirmed nor already auto-confirmed. -/
def sweep_selects (r : Report) (now : Int) : Bool :=
  r.status = ReportStatus.AWAITING_CONFIRMATION
    && (match r.confirmation_deadline with
        | some d => d < now
        | none => false)
    && !r.citizen_confirmed
    && !r.auto_confirmed

/-- The per-report mutation applied by both sweep implementations
(`auto_confirm_expired_reports` in `app/api/reports.py` and
`daily_auto_confirm` in `app/api/tasks.py`). -/
def sweep_write (r : Report) (now : Int) : Report :=
  { r with
    auto_confirmed := true,
    status := ReportStatus.COMPLETED,
    resolved_at := some now,
    last_action := some "auto_confirmed",
    last_action_at := some now }

/-- `daily_auto_confirm` (POST `/cron/daily-auto-confirm` in
`app/api/tasks.py`) over the whole database: every selected report is
rewritten; the user table is never touched by the handler. -/
def daily_auto_confirm (reports : List Report) (users : List User) (now : Int) :
    List Report × List User :=
  (reports.map (fun r => if sweep_selects r now then sweep_write r now else r), users)

/- ============================ theorems ============================ -/

/-- All keyword weights in the scoring dictionary are non-negative. -/
lemma motsCles_weights_nonneg : ∀ kv ∈ motsCles, (0 : Int) ≤ kv.2 := by decide

/-- The keyword component of `calculer_score_description` is non-negative. -/
lemma kwScore_nonneg (descLower : List Char) :
    0 ≤ (motsCles.map (fun kv => if isSubList kv.1.data descLower then kv.2 else 0)).sum := by
  apply List.sum_nonneg
  intro x hx
  simp only [List.mem_map] at hx
  obtain ⟨kv, hkv, rfl⟩ := hx
  by_cases h : isSubList kv.1.data descLower
  · simpa [h] using motsCles_weights_nonneg kv hkv
  · simp [h]

/-- C7: `scoreDescription` returns 0 when the input is not a string or its
trimmed length is below 10 characters, and its result always lies in the
interval [0, 30], whatever the input length or keyword density. -/
theorem C7_score_description_zero_and_clamped (input : Option String) :
    ((input = none ∨ ∃ d, input = some d ∧ (pyStrip d.data).length < 10) →
      calculer_score_description input = 0)
    ∧ 0 ≤ calculer_score_description input
    ∧ calculer_score_description input ≤ 30 := by
  refine ⟨?_, ?_⟩
  · rintro (rfl | ⟨d, rfl, hd⟩)
    · rfl
    · simp [calculer_score_description, hd]
  · cases input with
    | none => simp [calculer_score_description]
    | some d =>
      simp only [calculer_score_description]
      by_cases hguard : d.data.isEmpty = true ∨ (pyStrip d.data).length < 10
      · rcases hguard with h | h <;> simp [h]
      · push_neg at hguard
        rw [if_neg (by simp [hguard.1, Nat.not_lt.mpr hguard.2])]
        have h1 : (0 : Int) ≤
            (if wordCount d.data ≥ 20 then (10 : Int)
             else if wordCount d.data ≥ 10 then 5
             else if wordCount d.data ≥ 5 then 2 else 0) := by
          split_ifs <;> norm_num
        have h2 := kwScore_nonneg (d.data.map Char.toLower)
        have h3 : (0 : Int) ≤
            (if searchQuantity (d.data.map Char.toLower) then (4 : Int) else 0) := by
          split_ifs <;> norm_num
        have h4 : (0 : Int) ≤
            ((if ',' ∈ d.data ∧ '.' ∈ d.data then (2 : Int) else 0)
              + (if headIsUpper d.data then 1 else 0)
              + (if '?' ∈ d.data ∨ '!' ∈ d.data then 1 else 0)) := by
          split_ifs <;> norm_num
        exact ⟨le_min (add_nonneg (add_nonneg (add_nonneg h1 h2) h3) h4) (by norm_num),
          min_le_right _ _⟩

/-- C7 witness: a 5-character description scores 0, and a long keyword-rich
description still scores at most 30 and at least 0. -/
theorem C7_witness :
    calculer_score_description (some "tas !") = 0
    ∧ 0 ≤ calculer_score_description (some "Gros tas de sacs plastiques !")
    ∧ calculer_score_description (some "Gros tas de sacs plastiques !") ≤ 30 :=
  ⟨(C7_score_description_zero_and_clamped (some "tas !")).1
      (Or.inr ⟨"tas !", rfl, by decide⟩),
   (C7_score_description_zero_and_clamped (some "Gros tas de sacs plastiques !")).2⟩

/-- C6: the total returned by `calculer_points_signalement` equals the sum
of the values present in its `details` map; the description entry is
present only if the stored score is positive (and then equals it), the
weight entry only if a weight is recorded (and then equals the truncation
of `weight_kg * 2`), and the flat 20-point bonus only if the report is
citizen-confirmed with a confirmation less than 24 hours after the cleanup
photo; absent terms are absent from the map, not zeroed. -/
theorem C6_points_total_is_sum_of_details (r : Report) (u : User) :
    (calculer_points_signalement r u).total
        = (calculer_points_signalement r u).details.sum
    ∧ (∀ v, (calculer_points_signalement r u).details.description = some v →
        0 < r.description_quality_score.getD 0
        ∧ v = r.description_quality_score.getD 0)
    ∧ (∀ v, (calculer_points_signalement r u).details.poids = some v →
        ∃ w, r.weight_kg = some w ∧ v = pyInt (w * 2))
    ∧ (∀ v, (calculer_points_signalement r u).details.confirmation_rapide = some v →
        r.citizen_confirmed = true
        ∧ ∃ ts tc, r.cleanup_photo_submitted_at = some ts
            ∧ r.citizen_confirmed_at = some tc
            ∧ tc - ts < 86400
            ∧ v = POINTS_CONFIRMATION_BONUS) := by
  refine ⟨rfl, ?_, ?_, ?_⟩
  · intro v hv
    by_cases h : r.description_quality_score.getD 0 > 0
    · simp only [calculer_points_signalement, h, if_true] at hv
      exact ⟨h, (Option.some_inj.mp hv).symm⟩
    · simp [calculer_points_signalement, h] at hv
  · intro v hv
    cases hw : r.weight_kg with
    | none => simp [calculer_points_signalement, hw] at hv
    | some w =>
      by_cases h : w ≠ 0 ∧ w > 0
      · simp only [calculer_points_signalement, hw] at hv
        rw [if_pos h] at hv
        exact ⟨w, rfl, (Option.some_inj.mp hv).symm⟩
      · simp [calculer_points_signalement, hw, h] at hv
  · intro v hv
    cases hc : r.citizen_confirmed with
    | false => simp [calculer_points_signalement, hc] at hv
    | true =>
      cases hts : r.cleanup_photo_submitted_at with
      | none => simp [calculer_points_signalement, hc, hts] at hv
      | some ts =>
        cases htc : r.citizen_confirmed_at with
        | none => simp [calculer_points_signalement, hc, hts, htc] at hv
        | some tc =>
          by_cases hlt : tc - ts < 86400
          · simp only [calculer_points_signalement, hc, hts, htc, hlt, if_true] at hv
            exact ⟨rfl, ts, tc, rfl, rfl, hlt, (Option.some_inj.mp hv).symm⟩
          · simp [calculer_points_signalement, hc, hts, htc, hlt] at hv

/-- A report with a recorded 15.5 kg weight, used to instantiate C6. -/
def c6_report : Report :=
  { id := 3, user_id := 10, collector_id := some 5,
    status := ReportStatus.COMPLETED, description := none,
    description_quality_score := some 0, weight_kg := some (31 / 2 : ℚ),
    weight_verified_at := some 900, weight_verified_by := some 5,
    cleanup_photo_url := none, cleanup_photo_submitted_at := none,
    citizen_confirmed := false, citizen_confirmed_at := none,
    confirmation_code := none, dispute_reason := none,
    confirmation_deadline := none, auto_confirmed := false,
    last_action := none, last_action_at := none, resolved_at := some 900 }

/-- A citizen row used to instantiate C6. -/
def c6_user : User :=
  { id := 10, role := "citoyen", commune := some "Lemba", points := some 0,
    subscription_active := false }

/-- C6 witness: on a concrete report carrying only a 15.5 kg weight the
total is the sum of the details, and the weight entry of 31 points comes
from a recorded weight. -/
theorem C6_witness :
    (calculer_points_signalement c6_report c6_user).total
        = (calculer_points_signalement c6_report c6_user).details.sum
    ∧ ∃ w, c6_report.weight_kg = some w ∧ (31 : Int) = pyInt (w * 2) :=
  ⟨(C6_points_total_is_sum_of_details c6_report c6_user).1,
   (C6_points_total_is_sum_of_details c6_report c6_user).2.2.1 31
     (by norm_num [calculer_points_signalement, c6_report, pyInt])⟩

/-- A subscribed citizen with no subscription row, used against C9. -/
def c9_user : User :=
  { id := 7, role := "citoyen", commune := none, points := some 5,
    subscription_active := true }

/-- A currently valid subscription row for the same citizen. -/
def c9_sub : Subscription := { user_id := 7, is_active := true, end_date := 1000 }

/-- C9 counterexample: the scoring engine is not side-effect-free.  Called
on a user whose flag is set but who has no valid subscription row,
`attribuer_points_abonnement` itself clears the persisted subscription
flag (and commits); called with a valid row, it itself increments the
persisted points counter.  Neither write is left to the caller. -/
theorem C9_counterexample :
    c9_user.subscription_active = true
    ∧ (attribuer_points_abonnement c9_user [] 0).1.subscription_active = false
    ∧ (attribuer_points_abonnement c9_user [] 0).2 = 0
    ∧ (attribuer_points_abonnement c9_user [c9_sub] 0).1.points = some 15
    ∧ c9_user.points = some 5 := by
  refine ⟨rfl, rfl, rfl, ?_, rfl⟩
  simp [attribuer_points_abonnement, c9_user, c9_sub, POINTS_ABONNEMENT_MENSUEL]

/-- C9 (amended): the computational scoring operations are pure Lean
functions of their inputs, but `attribuer_points_abonnement` performs its
own writes: it returns the input user unchanged (with 0) when the flag is
unset, itself credits the flat monthly constant when the flag is set and a
valid row exists, and itself clears the subscription flag when the flag is
set but no valid row exists. -/
theorem C9_subscription_points_engine_writes (u : User) (subs : List Subscription)
    (now : Int) :
    (u.subscription_active = false → attribuer_points_abonnement u subs now = (u, 0))
    ∧ (u.subscription_active = true →
        (subs.find? (fun s => s.user_id = u.id && s.is_active && now < s.end_date)).isSome →
        attribuer_points_abonnement u subs now =
          ({ u with points := some (u.points.getD 0 + POINTS_ABONNEMENT_MENSUEL) },
            POINTS_ABONNEMENT_MENSUEL))
    ∧ (u.subscription_active = true →
        subs.find? (fun s => s.user_id = u.id && s.is_active && now < s.end_date) = none →
        attribuer_points_abonnement u subs now =
          ({ u with subscription_active := false }, 0)) := by
  refine ⟨?_, ?_, ?_⟩
  · intro h
    simp [attribuer_points_abonnement, h]
  · intro h hfind
    rw [Option.isSome_iff_exists] at hfind
    obtain ⟨s, hs⟩ := hfind
    simp [attribuer_points_abonnement, h, hs]
  · intro h hfind
    simp [attribuer_points_abonnement, h, hfind]

/-- C9 witness: instantiation of the amended theorem on the concrete user
with a valid row and without one. -/
theorem C9_witness :
    attribuer_points_abonnement c9_user [c9_sub] 0 =
      ({ c9_user with points := some (c9_user.points.getD 0 + POINTS_ABONNEMENT_MENSUEL) },
        POINTS_ABONNEMENT_MENSUEL)
    ∧ attribuer_points_abonnement c9_user [] 0 =
      ({ c9_user with subscription_active := false }, 0) :=
  ⟨(C9_subscription_points_engine_writes c9_user [c9_sub] 0).2.1 rfl (by decide),
   (C9_subscription_points_engine_writes c9_user [] 0).2.2 rfl rfl⟩

/-- C5: on a report that already carries a weight, a second in-range
`recordWeight` call by an authorised agent fails with `AlreadySet` and
returns the report (all fields) and the owner unchanged; any call with a
weight outside (0, 1000] is rejected by validation before the handler
runs; and a first in-range call on a weightless report sets `weight_kg`. -/
theorem C5_record_weight_once (r : Report) (owner : User) (cu : User) (w : ℚ)
    (now : Int) :
    ((¬ (0 < w ∧ w ≤ 1000)) →
      update_report_weight_endpoint r owner cu w now =
        { state := (r, owner), error := some ApiError.ValidationError })
    ∧ (∀ w0, r.weight_kg = some w0 → 0 < w → w ≤ 1000 →
        cu.role ∈ weightRoles → (cu.role ∈ collectorRoles → r.collector_id = some cu.id) →
        update_report_weight_endpoint r owner cu w now =
          { state := (r, owner), error := some ApiError.AlreadySet })
    ∧ (r.weight_kg = none → 0 < w → w ≤ 1000 →
        cu.role ∈ weightRoles → (cu.role ∈ collectorRoles → r.collector_id = some cu.id) →
        (update_report_weight_endpoint r owner cu w now).error = none
        ∧ (update_report_weight_endpoint r owner cu w now).state.1.weight_kg = some w) := by
  refine ⟨?_, ?_, ?_⟩
  · intro hbad
    simp only [update_report_weight_endpoint, ReportWeightUpdate_valid]
    rw [if_pos]
    simpa using hbad
  · intro w0 hw0 h1 h2 hrole hassigned
    simp only [update_report_weight_endpoint, ReportWeightUpdate_valid]
    rw [if_neg (by simp [h1, h2])]
    simp only [update_report_weight]
    rw [if_neg (by simp [hrole]), if_neg (by intro hcon; exact hcon.2 (hassigned hcon.1))]
    simp [hw0]
  · intro hnone h1 h2 hrole hassigned
    simp only [update_report_weight_endpoint, ReportWeightUpdate_valid]
    rw [if_neg (by simp [h1, h2])]
    simp only [update_report_weight]
    rw [if_neg (by simp [hrole]), if_neg (by intro hcon; exact hcon.2 (hassigned hcon.1))]
    simp only [hnone]
    constructor
    · trivial
    · simp [backfill_score_weight]
      cases hd : r.description_quality_score with
      | some s => simp [hd]
      | none =>
        cases hdesc : r.description with
        | none => simp [hd, hdesc]
        | some d =>
          by_cases hde : d ≠ ""
          · simp [hd, hdesc, hde]
          · simp only [ne_eq, not_not] at hde
            simp [hd, hdesc, hde]

/-- A report whose weight is already recorded, used to instantiate C5. -/
def c5_report_set : Report :=
  { c6_report with id := 4, weight_kg := some 10, collector_id := some 5 }

/-- The same report before any weight was recorded. -/
def c5_report_unset : Report :=
  { c5_report_set with
    weight_kg := none,
    weight_verified_at := none,
    weight_verified_by := none }

/-- The assigned collector of the C5 reports. -/
def c5_collector : User :=
  { id := 5, role := "ramasseur", commune := some "Lemba", points := none,
    subscription_active := false }

/-- C5 witness: on the concrete report the second 12 kg call fails with
`AlreadySet` leaving the state unchanged, and the first call on the
weightless report succeeds and records 12 kg. -/
theorem C5_witness :
    update_report_weight_endpoint c5_report_set c6_user c5_collector 12 901 =
      { state := (c5_report_set, c6_user), error := some ApiError.AlreadySet }
    ∧ (update_report_weight_endpoint c5_report_unset c6_user c5_collector 12 901).error = none
    ∧ (update_report_weight_endpoint c5_report_unset c6_user c5_collector 12 901).state.1.weight_kg
        = some 12 :=
  ⟨(C5_record_weight_once c5_report_set c6_user c5_collector 12 901).2.1 10 rfl
      (by norm_num) (by norm_num) (by decide) (fun _ => rfl),
   (C5_record_weight_once c5_report_unset c6_user c5_collector 12 901).2.2 rfl
      (by norm_num) (by norm_num) (by decide) (fun _ => rfl)⟩

/-- The authentication cascade of `confirm_cleanup_by_citizen` succeeds:
either an authenticated caller passes the two ownership/role checks, or an
anonymous caller supplies the exact confirmation code. -/
def confirm_auth_passes (r : Report) (current_user : Option User)
    (conf : CitizenConfirmation) : Bool :=
  match current_user with
  | some cu =>
    (decide (cu.role ∈ citizenRoles) || decide (r.user_id = cu.id))
      && (decide (r.user_id = cu.id) || decide (cu.role ∈ adminTierRoles))
  | none =>
    match conf.confirmation_code with
    | some c => decide (c ≠ "") && decide (r.confirmation_code = some c)
    | none => false

/-- When authentication passes, the endpoint reduces to its core with some
credit flag. -/
lemma confirm_cleanup_auth_dispatch (r : Report) (owner : User)
    (cu : Option User) (conf : CitizenConfirmation) (now : Int)
    (hauth : confirm_auth_passes r cu conf = true) :
    ∃ credit : Bool, confirm_cleanup_by_citizen r owner cu conf now =
      confirm_cleanup_core r owner credit conf now := by
  cases cu with
  | some u =>
    simp only [confirm_auth_passes, Bool.and_eq_true, Bool.or_eq_true,
      decide_eq_true_eq] at hauth
    refine ⟨decide (r.user_id = u.id), ?_⟩
    simp only [confirm_cleanup_by_citizen]
    rw [if_neg (by tauto), if_neg (by tauto)]
  | none =>
    cases hc : conf.confirmation_code with
    | none => simp [confirm_auth_passes, hc] at hauth
    | some c =>
      simp only [confirm_auth_passes, hc, Bool.and_eq_true, decide_eq_true_eq] at hauth
      refine ⟨false, ?_⟩
      simp only [confirm_cleanup_by_citizen, hc]
      rw [if_neg (by simp [hauth.1]), if_neg (by simp [hauth.2])]

/-- The expired-deadline branch of the confirmation core: the auto-confirm
write is produced together with the `Expired` error, whatever the credit
flag. -/
lemma confirm_cleanup_core_expired (r : Report) (owner : User) (credit : Bool)
    (conf : CitizenConfirmation) (now d : Int)
    (hstatus : r.status = ReportStatus.AWAITING_CONFIRMATION)
    (hdl : r.confirmation_deadline = some d) (hexp : d < now) :
    confirm_cleanup_core r owner credit conf now =
      { state := (auto_confirm_write r now, owner), error := some ApiError.Expired } := by
  simp only [confirm_cleanup_core, hstatus, hdl]
  rw [if_neg (by simp), if_pos (by omega)]

/-- C1: a confirmation call that passes authentication, on a report in
`AWAITING_CONFIRMATION` whose deadline lies before the current clock time,
first applies the auto-confirm side effect (`auto_confirmed` true, status
`COMPLETED`, `resolved_at` stamped) and then reports `Expired` to the
caller; the committed write is returned together with the failure, and the
owner row is untouched. -/
theorem C1_expired_confirmation_writes_then_fails (r : Report) (owner : User)
    (cu : Option User) (conf : CitizenConfirmation) (now d : Int)
    (hauth : confirm_auth_passes r cu conf = true)
    (hstatus : r.status = ReportStatus.AWAITING_CONFIRMATION)
    (hdl : r.confirmation_deadline = some d)
    (hexp : d < now) :
    (confirm_cleanup_by_citizen r owner cu conf now).error = some ApiError.Expired
    ∧ (confirm_cleanup_by_citizen r owner cu conf now).state.1.auto_confirmed = true
    ∧ (confirm_cleanup_by_citizen r owner cu conf now).state.1.status
        = ReportStatus.COMPLETED
    ∧ (confirm_cleanup_by_citizen r owner cu conf now).state.1.resolved_at = some now
    ∧ (confirm_cleanup_by_citizen r owner cu conf now).state.2 = owner := by
  obtain ⟨credit, heq⟩ := confirm_cleanup_auth_dispatch r owner cu conf now hauth
  rw [heq, confirm_cleanup_core_expired r owner credit conf now d hstatus hdl hexp]
  exact ⟨rfl, rfl, rfl, rfl, rfl⟩

/-- A report awaiting confirmation whose 48 h deadline is already past. -/
def c1_report : Report :=
  { id := 11, user_id := 10, collector_id := some 5,
    status := ReportStatus.AWAITING_CONFIRMATION, description := none,
    description_quality_score := some 15, weight_kg := none,
    weight_verified_at := none, weight_verified_by := none,
    cleanup_photo_url := some "/static/cleanup_a.jpg",
    cleanup_photo_submitted_at := some 100, citizen_confirmed := false,
    citizen_confirmed_at := none, confirmation_code := some "A1B2C3D4",
    dispute_reason := none, confirmation_deadline := some (100 + 48 * 3600),
    auto_confirmed := false, last_action := some "photo_submitted",
    last_action_at := some 100, resolved_at := none }

/-- The owning citizen of `c1_report`. -/
def c1_owner : User :=
  { id := 10, role := "citoyen", commune := some "Lemba", points := some 40,
    subscription_active := false }

/-- C1 witness: the owner confirming one second after the deadline gets
`Expired` while the auto-confirm write is committed. -/
theorem C1_witness :
    (confirm_cleanup_by_citizen c1_report c1_owner (some c1_owner)
        { confirmed := true, reason := none, confirmation_code := none } 172901).error
      = some ApiError.Expired
    ∧ (confirm_cleanup_by_citizen c1_report c1_owner (some c1_owner)
        { confirmed := true, reason := none, confirmation_code := none } 172901).state.1.auto_confirmed
      = true
    ∧ (confirm_cleanup_by_citizen c1_report c1_owner (some c1_owner)
        { confirmed := true, reason := none, confirmation_code := none } 172901).state.1.status
      = ReportStatus.COMPLETED
    ∧ (confirm_cleanup_by_citizen c1_report c1_owner (some c1_owner)
        { confirmed := true, reason := none, confirmation_code := none } 172901).state.1.resolved_at
      = some 172901
    ∧ (confirm_cleanup_by_citizen c1_report c1_owner (some c1_owner)
        { confirmed := true, reason := none, confirmation_code := none } 172901).state.2
      = c1_owner :=
  C1_expired_confirmation_writes_then_fails c1_report c1_owner (some c1_owner)
    { confirmed := true, reason := none, confirmation_code := none } 172901 172900
    (by decide) rfl rfl (by omega)

/-- When the status check passes and the deadline has not passed, the
confirmation core reduces to its confirm / dispute branch. -/
lemma confirm_cleanup_core_live (r : Report) (owner : User) (credit : Bool)
    (conf : CitizenConfirmation) (now : Int)
    (hstatus : r.status = ReportStatus.AWAITING_CONFIRMATION)
    (hdl : ∀ d, r.confirmation_deadline = some d → ¬ now > d) :
    confirm_cleanup_core r owner credit conf now =
      confirm_cleanup_branch r owner credit conf now := by
  simp only [confirm_cleanup_core]
  rw [if_neg (by simp [hstatus])]
  cases hd : r.confirmation_deadline with
  | none => simp only
  | some d =>
    simp only
    rw [if_neg (hdl d hd)]

/-- C8: with the report awaiting confirmation and its deadline not passed,
a rejection by the owning citizen whose reason has fewer than 10 trimmed
characters (or no reason at all) fails with `ValidationError` and leaves
the state untouched, while a reason of at least 10 trimmed characters
(for instance exactly 10 non-whitespace ones) succeeds, stores the reason
in `dispute_reason` and moves the status to `DISPUTED`. -/
theorem C8_dispute_reason_validation (r : Report) (owner : User)
    (conf : CitizenConfirmation) (now : Int)
    (howner : r.user_id = owner.id)
    (hstatus : r.status = ReportStatus.AWAITING_CONFIRMATION)
    (hdl : ∀ d, r.confirmation_deadline = some d → ¬ now > d)
    (hc : conf.confirmed = false) :
    (∀ reason, conf.reason = some reason → (pyStrip reason.data).length < 10 →
      confirm_cleanup_by_citizen r owner (some owner) conf now =
        { state := (r, owner), error := some ApiError.ValidationError })
    ∧ (conf.reason = none →
      confirm_cleanup_by_citizen r owner (some owner) conf now =
        { state := (r, owner), error := some ApiError.ValidationError })
    ∧ (∀ reason, conf.reason = some reason → 10 ≤ (pyStrip reason.data).length →
      (confirm_cleanup_by_citizen r owner (some owner) conf now).error = none
      ∧ (confirm_cleanup_by_citizen r owner (some owner) conf now).state.1.status
          = ReportStatus.DISPUTED
      ∧ (confirm_cleanup_by_citizen r owner (some owner) conf now).state.1.dispute_reason
          = some reason
      ∧ (confirm_cleanup_by_citizen r owner (some owner) conf now).state.2 = owner) := by
  have hauth : confirm_auth_passes r (some owner) conf = true := by
    simp [confirm_auth_passes, howner]
  obtain ⟨credit, heq⟩ :=
    confirm_cleanup_auth_dispatch r owner (some owner) conf now hauth
  rw [heq, confirm_cleanup_core_live r owner credit conf now hstatus hdl]
  refine ⟨?_, ?_, ?_⟩
  · intro reason hr hshort
    simp only [confirm_cleanup_branch]
    rw [if_neg (by simp [hc]), hr]
    simp only
    rw [if_pos (Or.inr hshort)]
  · intro hr
    simp only [confirm_cleanup_branch]
    rw [if_neg (by simp [hc]), hr]
  · intro reason hr hlong
    simp only [confirm_cleanup_branch]
    rw [if_neg (by simp [hc]), hr]
    simp only
    rw [if_neg ?hcond]
    case hcond =>
      rintro (hemp | hshort)
      · subst hemp
        simp [pyStrip] at hlong
      · omega
    exact ⟨rfl, rfl, rfl, rfl⟩

/-- The report of C1 with its deadline still in the future. -/
def c8_report : Report :=
  { c1_report with id := 12, confirmation_deadline := some 172900 }

/-- C8 witness: at clock time 200 the 5-character reason fails validation
and the 10-character reason moves the concrete report to `DISPUTED`. -/
theorem C8_witness :
    confirm_cleanup_by_citizen c8_report c1_owner (some c1_owner)
        { confirmed := false, reason := some "piles", confirmation_code := none } 200 =
      { state := (c8_report, c1_owner), error := some ApiError.ValidationError }
    ∧ ((confirm_cleanup_by_citizen c8_report c1_owner (some c1_owner)
        { confirmed := false, reason := some "pasnettoye", confirmation_code := none } 200).error
      = none
    ∧ (confirm_cleanup_by_citizen c8_report c1_owner (some c1_owner)
        { confirmed := false, reason := some "pasnettoye", confirmation_code := none } 200).state.1.status
      = ReportStatus.DISPUTED) :=
  ⟨(C8_dispute_reason_validation c8_report c1_owner
      { confirmed := false, reason := some "piles", confirmation_code := none } 200
      rfl rfl (by intro d h; injection h with h2; omega) rfl).1
      "piles" rfl (by decide),
   ⟨((C8_dispute_reason_validation c8_report c1_owner
      { confirmed := false, reason := some "pasnettoye", confirmation_code := none } 200
      rfl rfl (by intro d h; injection h with h2; omega) rfl).2.2
      "pasnettoye" rfl (by decide)).1,
    ((C8_dispute_reason_validation c8_report c1_owner
      { confirmed := false, reason := some "pasnettoye", confirmation_code := none } 200
      rfl rfl (by intro d h; injection h with h2; omega) rfl).2.2
      "pasnettoye" rfl (by decide)).2.1⟩⟩

/-- C10: auto-confirmation never credits points.  The daily sweep returns
the user table unchanged; its per-report write touches only
`auto_confirmed`, `status`, `resolved_at` and the audit fields; and the
deadline-expired confirmation path leaves the owner row (in particular its
points counter) and every non-auto-confirm report field unchanged. -/
theorem C10_auto_confirm_credits_no_points :
    (∀ reports users now, (daily_auto_confirm reports users now).2 = users)
    ∧ (∀ r now,
        (sweep_write r now).user_id = r.user_id
        ∧ (sweep_write r now).collector_id = r.collector_id
        ∧ (sweep_write r now).description = r.description
        ∧ (sweep_write r now).description_quality_score = r.description_quality_score
        ∧ (sweep_write r now).weight_kg = r.weight_kg
        ∧ (sweep_write r now).weight_verified_at = r.weight_verified_at
        ∧ (sweep_write r now).weight_verified_by = r.weight_verified_by
        ∧ (sweep_write r now).cleanup_photo_url = r.cleanup_photo_url
        ∧ (sweep_write r now).cleanup_photo_submitted_at = r.cleanup_photo_submitted_at
        ∧ (sweep_write r now).citizen_confirmed = r.citizen_confirmed
        ∧ (sweep_write r now).citizen_confirmed_at = r.citizen_confirmed_at
        ∧ (sweep_write r now).confirmation_code = r.confirmation_code
        ∧ (sweep_write r now).dispute_reason = r.dispute_reason
        ∧ (sweep_write r now).confirmation_deadline = r.confirmation_deadline)
    ∧ (∀ r owner cu conf now d,
        confirm_auth_passes r cu conf = true →
        r.status = ReportStatus.AWAITING_CONFIRMATION →
        r.confirmation_deadline = some d → d < now →
        (confirm_cleanup_by_citizen r owner cu conf now).state.2 = owner
        ∧ (confirm_cleanup_by_citizen r owner cu conf now).state.2.points = owner.points
        ∧ (confirm_cleanup_by_citizen r owner cu conf now).state.1.weight_kg = r.weight_kg
        ∧ (confirm_cleanup_by_citizen r owner cu conf now).state.1.description_quality_score
            = r.description_quality_score
        ∧ (confirm_cleanup_by_citizen r owner cu conf now).state.1.citizen_confirmed
            = r.citizen_confirmed
        ∧ (confirm_cleanup_by_citizen r owner cu conf now).state.1.last_action_at
            = r.last_action_at) := by
  refine ⟨fun _ _ _ => rfl,
    fun r now => ⟨rfl, rfl, rfl, rfl, rfl, rfl, rfl, rfl, rfl, rfl, rfl, rfl, rfl, rfl⟩,
    ?_⟩
  intro r owner cu conf now d hauth hstatus hdl hexp
  obtain ⟨credit, heq⟩ := confirm_cleanup_auth_dispatch r owner cu conf now hauth
  rw [heq, confirm_cleanup_core_expired r owner credit conf now d hstatus hdl hexp]
  exact ⟨rfl, rfl, rfl, rfl, rfl, rfl⟩

/-- C10 witness: the expired-path conjunct instantiated on the concrete
expired report of C1. -/
theorem C10_witness :
    (confirm_cleanup_by_citizen c1_report c1_owner (some c1_owner)
        { confirmed := true, reason := none, confirmation_code := none } 172901).state.2
      = c1_owner
    ∧ (confirm_cleanup_by_citizen c1_report c1_owner (some c1_owner)
        { confirmed := true, reason := none, confirmation_code := none } 172901).state.2.points
      = c1_owner.points
    ∧ (confirm_cleanup_by_citizen c1_report c1_owner (some c1_owner)
        { confirmed := true, reason := none, confirmation_code := none } 172901).state.1.weight_kg
      = c1_report.weight_kg
    ∧ (confirm_cleanup_by_citizen c1_report c1_owner (some c1_owner)
        { confirmed := true, reason := none, confirmation_code := none } 172901).state.1.description_quality_score
      = c1_report.description_quality_score
    ∧ (confirm_cleanup_by_citizen c1_report c1_owner (some c1_owner)
        { confirmed := true, reason := none, confirmation_code := none } 172901).state.1.citizen_confirmed
      = c1_report.citizen_confirmed
    ∧ (confirm_cleanup_by_citizen c1_report c1_owner (some c1_owner)
        { confirmed := true, reason := none, confirmation_code := none } 172901).state.1.last_action_at
      = c1_report.last_action_at :=
  C10_auto_confirm_credits_no_points.2.2 c1_report c1_owner (some c1_owner)
    { confirmed := true, reason := none, confirmation_code := none } 172901 172900
    (by decide) rfl rfl (by omega)

/-- A pending report with no assigned collector, used against C2. -/
def c2_report : Report :=
  { id := 21, user_id := 10, collector_id := none,
    status := ReportStatus.PENDING, description := none,
    description_quality_score := none, weight_kg := none,
    weight_verified_at := none, weight_verified_by := none,
    cleanup_photo_url := none, cleanup_photo_submitted_at := none,
    citizen_confirmed := false, citizen_confirmed_at := none,
    confirmation_code := none, dispute_reason := none,
    confirmation_deadline := none, auto_confirmed := false,
    last_action := none, last_action_at := none, resolved_at := none }

/-- A supervisor in the same commune as the reporter, who is not (and
cannot be) the assigned collector. -/
def c2_supervisor : User :=
  { id := 99, role := "superviseur", commune := some "Lemba", points := none,
    subscription_active := false }

/-- C2 counterexample: the generic status-update route lets a supervisor —
not the assigned collector, there is none — move a `PENDING` report
directly to `AWAITING_CONFIRMATION`; the transition guard claimed for the
whole system is enforced only by the photo-submission route. -/
theorem C2_counterexample :
    c2_report.status = ReportStatus.PENDING
    ∧ c2_report.collector_id = none
    ∧ c2_supervisor.role ∉ collectorRoles
    ∧ (update_report_status c2_report (some "Lemba") c2_supervisor
        ReportStatus.AWAITING_CONFIRMATION none 500).error = none
    ∧ (update_report_status c2_report (some "Lemba") c2_supervisor
        ReportStatus.AWAITING_CONFIRMATION none 500).state.status
      = ReportStatus.AWAITING_CONFIRMATION := by decide

/-- C2 (amended): the submit-cleanup-photo route alone enforces the
claimed guard: it succeeds only for the assigned collector from
`IN_PROGRESS` or `ASSIGNED` (and then yields `AWAITING_CONFIRMATION`), a
non-collector role or a non-assigned collector gets `PermissionDenied`,
and the assigned collector in any other state gets `InvalidState`; but the
generic `update_report_status` route can also set `AWAITING_CONFIRMATION`,
by any in-scope agent from any state. -/
theorem C2_submit_photo_guard (r : Report) (cu : User) (url : String)
    (notes : Option String) (code : String) (now : Int) :
    ((submit_cleanup_photo r cu url notes code now).error = none →
      cu.role ∈ collectorRoles ∧ r.collector_id = some cu.id
      ∧ (r.status = ReportStatus.IN_PROGRESS ∨ r.status = ReportStatus.ASSIGNED)
      ∧ (submit_cleanup_photo r cu url notes code now).state.status
          = ReportStatus.AWAITING_CONFIRMATION)
    ∧ (cu.role ∉ collectorRoles →
        submit_cleanup_photo r cu url notes code now =
          { state := r, error := some ApiError.PermissionDenied })
    ∧ (cu.role ∈ collectorRoles → r.collector_id ≠ some cu.id →
        submit_cleanup_photo r cu url notes code now =
          { state := r, error := some ApiError.PermissionDenied })
    ∧ (cu.role ∈ collectorRoles → r.collector_id = some cu.id →
        r.status ≠ ReportStatus.IN_PROGRESS → r.status ≠ ReportStatus.ASSIGNED →
        submit_cleanup_photo r cu url notes code now =
          { state := r, error := some ApiError.InvalidState }) := by
  refine ⟨?_, ?_, ?_, ?_⟩
  · intro h
    by_cases h1 : cu.role ∈ collectorRoles
    · by_cases h2 : r.collector_id = some cu.id
      · by_cases h3 : r.status = ReportStatus.IN_PROGRESS ∨ r.status = ReportStatus.ASSIGNED
        · refine ⟨h1, h2, h3, ?_⟩
          simp only [submit_cleanup_photo]
          rw [if_neg (by simp [h1]), if_neg (by simp [h2]),
            if_neg (by simp; tauto)]
          cases notes with
          | none => rfl
          | some n =>
            simp only
            split_ifs <;> rfl
        · exfalso
          simp only [submit_cleanup_photo] at h
          rw [if_neg (by simp [h1]), if_neg (by simp [h2]),
            if_pos (by simp; tauto)] at h
          exact Option.noConfusion h
      · exfalso
        simp only [submit_cleanup_photo] at h
        rw [if_neg (by simp [h1]), if_pos h2] at h
        exact Option.noConfusion h
    · exfalso
      simp only [submit_cleanup_photo] at h
      rw [if_pos h1] at h
      exact Option.noConfusion h
  · intro h1
    simp only [submit_cleanup_photo]
    rw [if_pos h1]
  · intro h1 h2
    simp only [submit_cleanup_photo]
    rw [if_neg (by simp [h1]), if_pos h2]
  · intro h1 h2 h3 h4
    simp only [submit_cleanup_photo]
    rw [if_neg (by simp [h1]), if_neg (by simp [h2]), if_pos (by simp; tauto)]

/-- The report of C2 in progress and assigned to the collector of C5. -/
def c2_assigned_report : Report :=
  { c2_report with
    id := 22,
    collector_id := some 5,
    status := ReportStatus.IN_PROGRESS }

/-- C2 witness: through the photo route the assigned collector succeeds
from `IN_PROGRESS`, the supervisor is refused, and the collector is
refused from `PENDING`. -/
theorem C2_witness :
    ((submit_cleanup_photo c2_assigned_report c5_collector "/static/c.jpg" none
        "E5F6A7B8" 300).state.status = ReportStatus.AWAITING_CONFIRMATION)
    ∧ submit_cleanup_photo c2_assigned_report c2_supervisor "/static/c.jpg" none
        "E5F6A7B8" 300 =
      { state := c2_assigned_report, error := some ApiError.PermissionDenied }
    ∧ submit_cleanup_photo c2_report c5_collector "/static/c.jpg" none
        "E5F6A7B8" 300 =
      { state := c2_report, error := some ApiError.PermissionDenied } :=
  ⟨((C2_submit_photo_guard c2_assigned_report c5_collector "/static/c.jpg" none
      "E5F6A7B8" 300).1 (by decide)).2.2.2,
   (C2_submit_photo_guard c2_assigned_report c2_supervisor "/static/c.jpg" none
      "E5F6A7B8" 300).2.1 (by decide),
   (C2_submit_photo_guard c2_report c5_collector "/static/c.jpg" none
      "E5F6A7B8" 300).2.2.1 (by decide) (by decide)⟩

/-- The confirmation-path score backfill never changes the status. -/
lemma backfill_score_confirm_status (x : Report) :
    (backfill_score_confirm x).status = x.status := by
  cases h1 : x.description_quality_score with
  | some s => simp [backfill_score_confirm, h1]
  | none =>
    cases h2 : x.description with
    | none => simp [backfill_score_confirm, h1, h2]
    | some d =>
      simp only [backfill_score_confirm, h1, h2]
      split_ifs <;> rfl

/-- The confirmation-path score backfill never changes `citizen_confirmed`. -/
lemma backfill_score_confirm_citizen_confirmed (x : Report) :
    (backfill_score_confirm x).citizen_confirmed = x.citizen_confirmed := by
  cases h1 : x.description_quality_score with
  | some s => simp [backfill_score_confirm, h1]
  | none =>
    cases h2 : x.description with
    | none => simp [backfill_score_confirm, h1, h2]
    | some d =>
      simp only [backfill_score_confirm, h1, h2]
      split_ifs <;> rfl

/-- The confirmation-path score backfill never changes `resolved_at`. -/
lemma backfill_score_confirm_resolved_at (x : Report) :
    (backfill_score_confirm x).resolved_at = x.resolved_at := by
  cases h1 : x.description_quality_score with
  | some s => simp [backfill_score_confirm, h1]
  | none =>
    cases h2 : x.description with
    | none => simp [backfill_score_confirm, h1, h2]
    | some d =>
      simp only [backfill_score_confirm, h1, h2]
      split_ifs <;> rfl

/-- The weight-path score backfill never changes `resolved_at`. -/
lemma backfill_score_weight_resolved_at (x : Report) :
    (backfill_score_weight x).resolved_at = x.resolved_at := by
  cases h1 : x.description_quality_score with
  | some s => simp [backfill_score_weight, h1]
  | none =>
    cases h2 : x.description with
    | none => simp [backfill_score_weight, h1, h2]
    | some d =>
      simp only [backfill_score_weight, h1, h2]
      split_ifs <;> rfl

/-- Appending supervisor notes never changes the status. -/
lemma append_admin_notes_status (x : Report) (notes : Option String) :
    (append_admin_notes x notes).status = x.status := by
  cases notes with
  | none => rfl
  | some n =>
    simp only [append_admin_notes]
    split_ifs <;> rfl

/-- Appending supervisor notes never changes `resolved_at`. -/
lemma append_admin_notes_resolved_at (x : Report) (notes : Option String) :
    (append_admin_notes x notes).resolved_at = x.resolved_at := by
  cases notes with
  | none => rfl
  | some n =>
    simp only [append_admin_notes]
    split_ifs <;> rfl

/-- The confirm / dispute branch writes `resolved_at` only while setting
the status to `COMPLETED`. -/
lemma confirm_cleanup_branch_resolved (r : Report) (owner : User) (credit : Bool)
    (conf : CitizenConfirmation) (now : Int) :
    (confirm_cleanup_branch r owner credit conf now).state.1.resolved_at = r.resolved_at
    ∨ (confirm_cleanup_branch r owner credit conf now).state.1.status
        = ReportStatus.COMPLETED := by
  simp only [confirm_cleanup_branch]
  by_cases hc : conf.confirmed = true
  · rw [if_pos hc]
    by_cases hcr : credit = true
    · rw [if_pos hcr]
      right
      exact backfill_score_confirm_status (confirm_success_report r now)
    · rw [if_neg hcr]
      right
      rfl
  · rw [if_neg hc]
    cases hr : conf.reason with
    | none => exact Or.inl rfl
    | some reason =>
      simp only
      split_ifs <;> exact Or.inl rfl

/-- The confirmation core writes `resolved_at` only while setting the
status to `COMPLETED`. -/
lemma confirm_cleanup_core_resolved (r : Report) (owner : User) (credit : Bool)
    (conf : CitizenConfirmation) (now : Int) :
    (confirm_cleanup_core r owner credit conf now).state.1.resolved_at = r.resolved_at
    ∨ (confirm_cleanup_core r owner credit conf now).state.1.status
        = ReportStatus.COMPLETED := by
  simp only [confirm_cleanup_core]
  by_cases h1 : r.status ≠ ReportStatus.AWAITING_CONFIRMATION
  · rw [if_pos h1]
    exact Or.inl rfl
  · rw [if_neg h1]
    cases hd : r.confirmation_deadline with
    | none =>
      simp only
      exact confirm_cleanup_branch_resolved r owner credit conf now
    | some d =>
      simp only
      by_cases h2 : now > d
      · rw [if_pos h2]
        right
        rfl
      · rw [if_neg h2]
        exact confirm_cleanup_branch_resolved r owner credit conf now

/-- C3 (amended): every core operation writes `resolved_at` only in a call
that simultaneously sets the status to `COMPLETED` — equivalently, each
call either leaves `resolved_at` untouched or ends with the report
`COMPLETED`.  (The original write-once claim fails: see the
counterexample.) -/
theorem C3_resolved_at_only_with_completed :
    (∀ r cu url notes code now,
      (submit_cleanup_photo r cu url notes code now).state.resolved_at = r.resolved_at
      ∨ (submit_cleanup_photo r cu url notes code now).state.status
          = ReportStatus.COMPLETED)
    ∧ (∀ r owner cu conf now,
      (confirm_cleanup_by_citizen r owner cu conf now).state.1.resolved_at = r.resolved_at
      ∨ (confirm_cleanup_by_citizen r owner cu conf now).state.1.status
          = ReportStatus.COMPLETED)
    ∧ (∀ r oc cu res notes now,
      (resolve_dispute r oc cu res notes now).state.resolved_at = r.resolved_at
      ∨ (resolve_dispute r oc cu res notes now).state.status = ReportStatus.COMPLETED)
    ∧ (∀ r owner cu w now,
      (update_report_weight_endpoint r owner cu w now).state.1.resolved_at = r.resolved_at
      ∨ (update_report_weight_endpoint r owner cu w now).state.1.status
          = ReportStatus.COMPLETED)
    ∧ (∀ r oc cu ns cid now,
      (update_report_status r oc cu ns cid now).state.resolved_at = r.resolved_at
      ∨ (update_report_status r oc cu ns cid now).state.status = ReportStatus.COMPLETED)
    ∧ (∀ r cu now,
      (confirm_collection_by_citizen r cu now).state.1.resolved_at = r.resolved_at
      ∨ (confirm_collection_by_citizen r cu now).state.1.status
          = ReportStatus.COMPLETED)
    ∧ (∀ r now,
      (if sweep_selects r now then sweep_write r now else r).resolved_at = r.resolved_at
      ∨ (if sweep_selects r now then sweep_write r now else r).status
          = ReportStatus.COMPLETED) := by
  refine ⟨?_, ?_, ?_, ?_, ?_, ?_, ?_⟩
  · intro r cu url notes code now
    simp only [submit_cleanup_photo]
    split_ifs <;> first
      | exact Or.inl rfl
      | (left
         cases notes with
         | none => rfl
         | some n =>
           simp only
           split_ifs <;> rfl)
  · intro r owner cu conf now
    cases cu with
    | some u =>
      simp only [confirm_cleanup_by_citizen]
      split_ifs <;> first
        | trivial
        | exact Or.inl trivial
        | exact Or.inl rfl
        | exact confirm_cleanup_core_resolved r owner _ conf now
    | none =>
      cases hc : conf.confirmation_code with
      | none =>
        simp [confirm_cleanup_by_citizen, hc]
      | some c =>
        simp only [confirm_cleanup_by_citizen, hc]
        split_ifs <;> first
          | trivial
          | exact Or.inl trivial
          | exact Or.inl rfl
          | exact confirm_cleanup_core_resolved r owner false conf now
  · intro r oc cu res notes now
    simp only [resolve_dispute]
    split_ifs <;> first
      | exact Or.inl rfl
      | (right
         exact append_admin_notes_status _ notes)
      | (left
         exact append_admin_notes_resolved_at _ notes)
  · intro r owner cu w now
    simp only [update_report_weight_endpoint, update_report_weight]
    split_ifs <;> first
      | exact Or.inl rfl
      | (cases hw : r.weight_kg with
         | some w0 =>
           simp only [hw]
           first
             | exact Or.inl trivial
             | exact Or.inl rfl
         | none =>
           simp only [hw]
           left
           exact backfill_score_weight_resolved_at _)
  · intro r oc cu ns cid now
    by_cases hns : ns = ReportStatus.COMPLETED
    · subst hns
      simp only [update_report_status]
      split_ifs <;> first | exact Or.inl rfl | exact Or.inr rfl
    · simp only [update_report_status]
      cases cid with
      | none =>
        split_ifs <;> first
          | exact Or.inl rfl
          | exact absurd (by assumption) hns
      | some c =>
        split_ifs <;> first
          | exact Or.inl rfl
          | exact absurd (by assumption) hns
  · intro r cu now
    simp only [confirm_collection_by_citizen]
    split_ifs <;> first | exact Or.inl rfl | exact Or.inr rfl
  · intro r now
    by_cases h : sweep_selects r now = true
    · rw [if_pos h]
      exact Or.inr rfl
    · rw [if_neg h]
      exact Or.inl rfl

/-- A report already completed at time 100, used against C3. -/
def c3_report : Report :=
  { c2_report with id := 23, status := ReportStatus.COMPLETED, resolved_at := some 100 }

/-- An administrator, used against C3. -/
def c3_admin : User :=
  { id := 1, role := "admin", commune := none, points := none,
    subscription_active := false }

/-- C3 counterexample: `resolved_at` is not written exactly once — a
second `update_report_status(COMPLETED)` on an already-completed report
overwrites the stored timestamp 100 with 200. -/
theorem C3_counterexample :
    c3_report.status = ReportStatus.COMPLETED
    ∧ c3_report.resolved_at = some 100
    ∧ (update_report_status c3_report none c3_admin ReportStatus.COMPLETED none 200).error
      = none
    ∧ (update_report_status c3_report none c3_admin ReportStatus.COMPLETED none 200).state.resolved_at
      = some 200 := by decide

/-- The report of C8 (awaiting confirmation, live deadline) with a stored
description score of 15. -/
def c4_report : Report :=
  { c8_report with id := 13 }

/-- C4 counterexample: an owner identified by the matching confirmation
code (unauthenticated call) confirms in time; the report is completed and
marked citizen-confirmed, `pointsForReport` computes a positive total of
35 for it (15 description points plus the 20-point fast bonus), yet the
citizen is credited nothing — the claimed credit only happens on the
authenticated path. -/
theorem C4_counterexample :
    (confirm_cleanup_by_citizen c4_report c1_owner none
        { confirmed := true, reason := none, confirmation_code := some "A1B2C3D4" } 200).error
      = none
    ∧ (confirm_cleanup_by_citizen c4_report c1_owner none
        { confirmed := true, reason := none, confirmation_code := some "A1B2C3D4" } 200).state.1.status
      = ReportStatus.COMPLETED
    ∧ (confirm_cleanup_by_citizen c4_report c1_owner none
        { confirmed := true, reason := none, confirmation_code := some "A1B2C3D4" } 200).state.1.citizen_confirmed
      = true
    ∧ (calculer_points_signalement
        (confirm_cleanup_by_citizen c4_report c1_owner none
          { confirmed := true, reason := none, confirmation_code := some "A1B2C3D4" } 200).state.1
        c1_owner).total = 35
    ∧ (confirm_cleanup_by_citizen c4_report c1_owner none
        { confirmed := true, reason := none, confirmation_code := some "A1B2C3D4" } 200).state.2.points
      = c1_owner.points := by decide

/-- C4 (amended): an in-time `confirmed=true` call on an awaiting report
by the authenticated owning citizen sets `citizen_confirmed`, moves the
status to `COMPLETED`, stamps `resolved_at`, and credits the
`pointsForReport` total when it is positive — falling back to a flat 100
points when that total is zero; an owner identified only by the matching
confirmation code gets the same report transition but no credit at all. -/
theorem C4_confirm_in_time_completes_and_credits (r : Report) (owner : User)
    (conf : CitizenConfirmation) (now : Int)
    (howner : r.user_id = owner.id)
    (hstatus : r.status = ReportStatus.AWAITING_CONFIRMATION)
    (hdl : ∀ d, r.confirmation_deadline = some d → ¬ now > d)
    (hc : conf.confirmed = true) :
    ((confirm_cleanup_by_citizen r owner (some owner) conf now).error = none
    ∧ (confirm_cleanup_by_citizen r owner (some owner) conf now).state.1 =
        { backfill_score_confirm (confirm_success_report r now) with
            last_action_at := some now }
    ∧ (confirm_cleanup_by_citizen r owner (some owner) conf now).state.1.citizen_confirmed
        = true
    ∧ (confirm_cleanup_by_citizen r owner (some owner) conf now).state.1.status
        = ReportStatus.COMPLETED
    ∧ (confirm_cleanup_by_citizen r owner (some owner) conf now).state.1.resolved_at
        = some now
    ∧ (confirm_cleanup_by_citizen r owner (some owner) conf now).state.2.points =
        some (owner.points.getD 0 +
          (if 0 < (calculer_points_signalement
                (backfill_score_confirm (confirm_success_report r now)) owner).total
            then (calculer_points_signalement
                (backfill_score_confirm (confirm_success_report r now)) owner).total
            else 100)))
    ∧ (∀ c, conf.confirmation_code = some c → c ≠ "" → r.confirmation_code = some c →
        (confirm_cleanup_by_citizen r owner none conf now).error = none
        ∧ (confirm_cleanup_by_citizen r owner none conf now).state.1 =
            { confirm_success_report r now with last_action_at := some now }
        ∧ (confirm_cleanup_by_citizen r owner none conf now).state.2 = owner) := by
  have hcred : (decide (r.user_id = owner.id)) = true := by simp [howner]
  constructor
  · simp only [confirm_cleanup_by_citizen]
    rw [if_neg (by simp [howner]), if_neg (by simp [howner])]
    rw [confirm_cleanup_core_live r owner _ conf now hstatus hdl, hcred]
    simp only [confirm_cleanup_branch]
    rw [if_pos hc, if_pos trivial]
    simp only [gt_iff_lt]
    by_cases hpos :
        0 < (calculer_points_signalement
          (backfill_score_confirm (confirm_success_report r now)) owner).total
    · rw [if_pos hpos]
      refine ⟨trivial, trivial, ?_, ?_, ?_, ?_⟩
      · show (backfill_score_confirm (confirm_success_report r now)).citizen_confirmed = true
        rw [backfill_score_confirm_citizen_confirmed]
        rfl
      · show (backfill_score_confirm (confirm_success_report r now)).status
            = ReportStatus.COMPLETED
        rw [backfill_score_confirm_status]
        rfl
      · show (backfill_score_confirm (confirm_success_report r now)).resolved_at = some now
        rw [backfill_score_confirm_resolved_at]
        rfl
      · first
          | rfl
          | rw [if_pos hpos]
    · rw [if_neg hpos]
      refine ⟨trivial, trivial, ?_, ?_, ?_, ?_⟩
      · show (backfill_score_confirm (confirm_success_report r now)).citizen_confirmed = true
        rw [backfill_score_confirm_citizen_confirmed]
        rfl
      · show (backfill_score_confirm (confirm_success_report r now)).status
            = ReportStatus.COMPLETED
        rw [backfill_score_confirm_status]
        rfl
      · show (backfill_score_confirm (confirm_success_report r now)).resolved_at = some now
        rw [backfill_score_confirm_resolved_at]
        rfl
      · first
          | rfl
          | rw [if_neg hpos]
  · intro c hcode hcne hrcode
    simp only [confirm_cleanup_by_citizen, hcode]
    rw [if_neg (by simp [hcne]), if_neg (by simp [hrcode])]
    rw [confirm_cleanup_core_live r owner false conf now hstatus hdl]
    simp only [confirm_cleanup_branch]
    rw [if_pos hc, if_neg (by simp)]
    exact ⟨rfl, rfl, rfl⟩

/-- C4 witness: the owning citizen confirming the concrete awaiting report
in time completes it and is credited its positive computed total. -/
theorem C4_witness :
    (confirm_cleanup_by_citizen c4_report c1_owner (some c1_owner)
        { confirmed := true, reason := none, confirmation_code := none } 200).error = none
    ∧ (confirm_cleanup_by_citizen c4_report c1_owner (some c1_owner)
        { confirmed := true, reason := none, confirmation_code := none } 200).state.1.status
      = ReportStatus.COMPLETED
    ∧ (confirm_cleanup_by_citizen c4_report c1_owner (some c1_owner)
        { confirmed := true, reason := none, confirmation_code := none } 200).state.1.citizen_confirmed
      = true
    ∧ (confirm_cleanup_by_citizen c4_report c1_owner (some c1_owner)
        { confirmed := true, reason := none, confirmation_code := none } 200).state.1.resolved_at
      = some 200
    ∧ (confirm_cleanup_by_citizen c4_report c1_owner (some c1_owner)
        { confirmed := true, reason := none, confirmation_code := none } 200).state.2.points =
      some (c1_owner.points.getD 0 +
        (if 0 < (calculer_points_signalement
              (backfill_score_confirm (confirm_success_report c4_report 200)) c1_owner).total
          then (calculer_points_signalement
              (backfill_score_confirm (confirm_success_report c4_report 200)) c1_owner).total
          else 100)) := by
  have h := C4_confirm_in_time_completes_and_credits c4_report c1_owner
    { confirmed := true, reason := none, confirmation_code := none } 200
    rfl rfl (by intro d hd; injection hd with h2; omega) rfl
  exact ⟨h.1.1, h.1.2.2.2.1, h.1.2.2.1, h.1.2.2.2.2.1, h.1.2.2.2.2.2⟩
